import Mathlib

/-!
Shallow embedding of the client-side token/session lifecycle core of the
dashboard page (`src/src/app/dashboard/page.tsx`).

Modelling conventions:
* `localStorage` is the `Store` record: the three keys the code touches
  (`token`, `refresh_token`, `active_chat_id`), each `Option String`
  (`none` = key absent, mirroring `getItem` returning `null`).
* JavaScript truthiness on a `string | null` value (`!x`) is `strTruthy`:
  `null` and the empty string are falsy.
* `jwtDecode` may throw; it is modelled as a function parameter
  `String → Option JWTPayload` (`none` = decoding threw).
* Each network exchange is modelled by a response parameter: an inductive
  with cases for a transport error (fetch rejected), a non-ok HTTP
  response, a body whose `json()` parse throws, and a parsed JSON body.
* React component state (`chatId`, `initialMessages`, `sessions`,
  `loading`) is the `Component` record; history entries are opaque to this
  core and modelled as plain strings.
* Functions that can fetch or reload additionally return a `Bool` flag
  recording whether that effect happened.
-/

/-- `TOKEN_REFRESH_THRESHOLD = 5 * 60` seconds. -/
def TOKEN_REFRESH_THRESHOLD : Int := 5 * 60

/-- Decoded JWT payload: `exp?: number`, `type?: string` (other claims unused). -/
structure JWTPayload where
  exp : Option Int
  type : Option String := none
deriving DecidableEq, Repr

/-- JavaScript truthiness of a `string | null` value: `null` and `""` are falsy. -/
def strTruthy : Option String → Bool
  | none => false
  | some s => !(s == "")

/-- The three `localStorage` keys the dashboard code reads and writes. -/
structure Store where
  token : Option String
  refresh_token : Option String
  active_chat_id : Option String
deriving DecidableEq, Repr

/-- `TokenManager.getAccessToken`. -/
def getAccessToken (s : Store) : Option String := s.token

/-- `TokenManager.getRefreshToken`. -/
def getRefreshToken (s : Store) : Option String := s.refresh_token

/-- `TokenManager.setTokens`: writes both token keys. -/
def setTokens (s : Store) (accessToken refreshToken : String) : Store :=
  { s with token := some accessToken, refresh_token := some refreshToken }

/-- `TokenManager.clearTokens`: removes both tokens and the chat-id key. -/
def clearTokens (s : Store) : Store :=
  { s with token := none, refresh_token := none, active_chat_id := none }

/-- `TokenManager.hasValidTokens`: `!!(getItem token && getItem refresh_token)`. -/
def hasValidTokens (s : Store) : Bool :=
  strTruthy s.token && strTruthy s.refresh_token

/-- `isTokenExpiringSoon`: decode the token; a decode failure or a falsy
`exp` claim yields `false`; otherwise compare the seconds remaining with
the threshold. `now` stands for `Math.floor(Date.now() / 1000)`. -/
def isTokenExpiringSoon (jwtDecode : String → Option JWTPayload)
    (now : Int) (token : String) : Bool :=
  match jwtDecode token with
  | none => false
  | some decoded =>
    match decoded.exp with
    | none => false
    | some e => if e == 0 then false else decide (e - now < TOKEN_REFRESH_THRESHOLD)

/-- Parsed body of the refresh endpoint; either field may be absent. -/
structure TokenResponse where
  access_token : Option String
  refresh_token : Option String
deriving DecidableEq, Repr

/-- Outcome of the refresh-endpoint exchange, as observed by `refreshTokens`. -/
inductive RefreshResp where
  | networkError
  | httpError
  | invalidJson
  | json (body : TokenResponse)
deriving DecidableEq, Repr

/-- The distinct `throw` sites of `refreshTokens`. -/
inductive RefreshError where
  | noRefreshToken
  | networkError
  | refreshRejected
  | jsonError
  | invalidTokenResponse
deriving DecidableEq, Repr

/-- `refreshTokens`: reads the refresh token, performs the exchange, and on
a body holding both tokens commits them via `setTokens` and returns the
pair; every other path throws without touching the store. The returned
`Store` is the store as the call leaves it. -/
def refreshTokens (s : Store) (resp : RefreshResp) :
    Store × Except RefreshError (String × String) :=
  if strTruthy (getRefreshToken s) = false then
    (s, Except.error RefreshError.noRefreshToken)
  else
    match resp with
    | RefreshResp.networkError => (s, Except.error RefreshError.networkError)
    | RefreshResp.httpError => (s, Except.error RefreshError.refreshRejected)
    | RefreshResp.invalidJson => (s, Except.error RefreshError.jsonError)
    | RefreshResp.json data =>
      if strTruthy data.access_token = false ∨ strTruthy data.refresh_token = false then
        (s, Except.error RefreshError.invalidTokenResponse)
      else
        match data.access_token, data.refresh_token with
        | some a, some r => (setTokens s a r, Except.ok (a, r))
        | _, _ => (s, Except.error RefreshError.invalidTokenResponse)

/-- `getValidToken`: `null` when no valid pair is stored; refresh when the
access token is truthy and expiring soon, clearing everything if the
refresh throws; otherwise return the stored token unchanged. -/
def getValidToken (jwtDecode : String → Option JWTPayload) (now : Int)
    (resp : RefreshResp) (s : Store) : Store × Option String :=
  if hasValidTokens s = false then (s, none)
  else
    match getAccessToken s with
    | some t =>
      if strTruthy (some t) && isTokenExpiringSoon jwtDecode now t then
        match refreshTokens s resp with
        | (s1, Except.ok pair) => (s1, some pair.1)
        | (s1, Except.error _) => (clearTokens s1, none)
      else (s, some t)
    | none => (s, none)

/-- Outcome of the chat-id allocation endpoint. -/
inductive ChatIdResp where
  | networkError
  | httpError
  | invalidJson
  | json (active_chat_id : String)
deriving DecidableEq, Repr

/-- The fetch branch of `getActiveChatId` (cache miss): on success persist
and return the allocated id; any failure is caught and yields `null` with
nothing persisted. The `Bool` records that a network call was made. -/
def getActiveChatIdFetch (resp : ChatIdResp) (s : Store) :
    Store × Option String × Bool :=
  match resp with
  | ChatIdResp.json cid => ({ s with active_chat_id := some cid }, some cid, true)
  | _ => (s, none, true)

/-- `getActiveChatId`: return the persisted id when truthy (no network
call); otherwise allocate one from the backend. -/
def getActiveChatId (resp : ChatIdResp) (s : Store) :
    Store × Option String × Bool :=
  match s.active_chat_id with
  | some storedChatId =>
    if storedChatId == "" then getActiveChatIdFetch resp s
    else (s, some storedChatId, false)
  | none => getActiveChatIdFetch resp s

/-- A row of the session list: `{ chat_id, title }`. -/
structure ChatSession where
  chat_id : String
  title : String
deriving DecidableEq, Repr

/-- React component state of the dashboard, together with the store. -/
structure Component where
  store : Store
  loading : Bool
  chatId : Option String
  initialMessages : List String
  sessions : List ChatSession
deriving DecidableEq, Repr

/-- Outcome of the chat-history endpoint; `history` may be absent. -/
inductive HistoryResp where
  | networkError
  | httpError
  | invalidJson
  | json (history : Option (List String))
deriving DecidableEq, Repr

/-- `fetchChatHistory`: on an ok response store `data.history || []`; on a
non-ok response remove the persisted chat id and reload the page; a thrown
error (transport failure or json parse) is caught and only logged. The
`Bool` records whether `window.location.reload()` was invoked. -/
def fetchChatHistory (id token : String) (resp : HistoryResp)
    (c : Component) : Component × Bool :=
  match resp with
  | HistoryResp.json h => ({ c with initialMessages := h.getD [] }, false)
  | HistoryResp.httpError =>
    ({ c with store := { c.store with active_chat_id := none } }, true)
  | HistoryResp.invalidJson => (c, false)
  | HistoryResp.networkError => (c, false)

/-- Outcome of the chat-sessions endpoint; `sessions` may be absent. -/
inductive SessionsResp where
  | networkError
  | httpError
  | invalidJson
  | json (sessions : Option (List ChatSession))
deriving DecidableEq, Repr

/-- `fetchChatSessions`: on an ok response store `data.sessions || []`;
a non-ok response falls through and a thrown error is caught and logged,
so every failure leaves the state untouched. -/
def fetchChatSessions (token : String) (resp : SessionsResp)
    (c : Component) : Component :=
  match resp with
  | SessionsResp.json ss => { c with sessions := ss.getD [] }
  | _ => c

/-- `handleSelectChat`: when an access token is truthy and the selected id
differs from the current `chatId` state, persist the selection, update
`chatId`, and fetch its history; otherwise do nothing. The `Bool` records
whether the history fetch was performed. -/
def handleSelectChat (selectedChatId : String) (resp : HistoryResp)
    (c : Component) : Component × Bool :=
  match getAccessToken c.store with
  | none => (c, false)
  | some token =>
    if token == "" then (c, false)
    else if some selectedChatId == c.chatId then (c, false)
    else
      let c1 := { c with loading := true }
      let c2 := { c1 with
        store := { c1.store with active_chat_id := some selectedChatId },
        chatId := some selectedChatId }
      let c3 := (fetchChatHistory selectedChatId token resp c2).1
      ({ c3 with loading := false }, true)

/-- Invariant of the store: the access token key is present exactly when
the refresh token key is. -/
def tokenPairInvariant (s : Store) : Prop :=
  s.token.isSome = s.refresh_token.isSome

/-- A decode oracle that always throws. -/
def decodeNone : String → Option JWTPayload := fun _ => none

/-- A decode oracle that always yields a payload without an `exp` claim. -/
def decodeNoExp : String → Option JWTPayload := fun _ => some { exp := none }

/-- A decode oracle that always yields a payload with the given `exp`. -/
def decodeExp (e : Int) : String → Option JWTPayload := fun _ => some { exp := some e }

/-- A concrete store holding a full credential set. -/
def store1 : Store := { token := some "at", refresh_token := some "rt", active_chat_id := some "cid" }

/-- A concrete component state with a non-empty session list. -/
def comp1 : Component :=
  { store := store1, loading := false, chatId := some "cid",
    initialMessages := [], sessions := [{ chat_id := "cid", title := "first" }] }

/-! ## Helper lemmas (shared) -/

/-- `strTruthy` on an absent value. -/
theorem strTruthy_none : strTruthy none = false := rfl

/-- `strTruthy` on a present string. -/
theorem strTruthy_some (s : String) : strTruthy (some s) = !(s == "") := rfl

/-- Case analysis of `refreshTokens`: every error path leaves the store
untouched, and the unique success path commits exactly the two truthy
tokens of a parsed body. -/
theorem refreshTokens_spec (s : Store) (resp : RefreshResp) :
    ((refreshTokens s resp).1 = s ∧ ∃ e, (refreshTokens s resp).2 = Except.error e) ∨
    (∃ a r, strTruthy (some a) = true ∧ strTruthy (some r) = true ∧
      resp = RefreshResp.json { access_token := some a, refresh_token := some r } ∧
      (refreshTokens s resp).1 = setTokens s a r ∧
      (refreshTokens s resp).2 = Except.ok (a, r)) := by
  by_cases hrt : strTruthy (getRefreshToken s) = false
  · refine Or.inl ⟨?_, RefreshError.noRefreshToken, ?_⟩ <;> simp [refreshTokens, hrt]
  · have hrt2 : strTruthy (getRefreshToken s) = true := by
      cases h2 : strTruthy (getRefreshToken s) with
      | false => exact absurd h2 hrt
      | true => rfl
    cases resp with
    | networkError =>
      refine Or.inl ⟨?_, RefreshError.networkError, ?_⟩ <;> simp [refreshTokens, hrt2]
    | httpError =>
      refine Or.inl ⟨?_, RefreshError.refreshRejected, ?_⟩ <;> simp [refreshTokens, hrt2]
    | invalidJson =>
      refine Or.inl ⟨?_, RefreshError.jsonError, ?_⟩ <;> simp [refreshTokens, hrt2]
    | json data =>
      obtain ⟨oa, ob⟩ := data
      cases oa with
      | none =>
        refine Or.inl ⟨?_, RefreshError.invalidTokenResponse, ?_⟩ <;>
          simp [refreshTokens, hrt2, strTruthy_none, strTruthy_some]
      | some a =>
        cases ob with
        | none =>
          refine Or.inl ⟨?_, RefreshError.invalidTokenResponse, ?_⟩ <;>
            simp [refreshTokens, hrt2, strTruthy_none, strTruthy_some]
        | some r =>
          by_cases hae : a = ""
          · refine Or.inl ⟨?_, RefreshError.invalidTokenResponse, ?_⟩ <;>
              simp [refreshTokens, hrt2, strTruthy_none, strTruthy_some, hae]
          · by_cases hre : r = ""
            · refine Or.inl ⟨?_, RefreshError.invalidTokenResponse, ?_⟩ <;>
                simp [refreshTokens, hrt2, strTruthy_none, strTruthy_some, hae, hre]
            · refine Or.inr ⟨a, r, ?_, ?_, rfl, ?_, ?_⟩ <;>
                simp [refreshTokens, hrt2, strTruthy_none, strTruthy_some, hae, hre]

/-! ## Claim theorems -/

/-- C1: for every store state and backend response, `refreshTokens` either
commits both new tokens to the store together (and a parsed body missing
either token is an error), or raises an error leaving the store exactly as
before the call, so `hasValidTokens` is unchanged by any failed refresh
and no state holding one new and one old token is ever produced. -/
theorem refreshTokens_atomic (s : Store) (resp : RefreshResp) :
    (∀ e, (refreshTokens s resp).2 = Except.error e →
      (refreshTokens s resp).1 = s ∧
      hasValidTokens (refreshTokens s resp).1 = hasValidTokens s) ∧
    (∀ a r, (refreshTokens s resp).2 = Except.ok (a, r) →
      (refreshTokens s resp).1 = setTokens s a r ∧
      resp = RefreshResp.json { access_token := some a, refresh_token := some r }) ∧
    (∀ body, resp = RefreshResp.json body →
      strTruthy body.access_token = false ∨ strTruthy body.refresh_token = false →
      ∃ e, (refreshTokens s resp).2 = Except.error e) := by
  rcases refreshTokens_spec s resp with ⟨h1, e0, h2⟩ | ⟨a, r, ha, hr, hresp, h1, h2⟩
  · refine ⟨fun e he => ⟨h1, by rw [h1]⟩, fun a r hok => ?_, fun body hb hmiss => ⟨e0, h2⟩⟩
    rw [h2] at hok
    exact Except.noConfusion hok
  · refine ⟨fun e he => ?_, fun a2 r2 hok => ?_, fun body hb hmiss => ?_⟩
    · rw [h2] at he
      exact Except.noConfusion he
    · rw [h2] at hok
      injection hok with h3
      injection h3 with h4 h5
      subst h4
      subst h5
      exact ⟨h1, hresp⟩
    · rw [hresp] at hb
      injection hb with hbody
      subst hbody
      rcases hmiss with h | h
      · rw [show ({ access_token := some a, refresh_token := some r } :
          TokenResponse).access_token = some a from rfl, ha] at h
        exact absurd h (by decide)
      · rw [show ({ access_token := some a, refresh_token := some r } :
          TokenResponse).refresh_token = some r from rfl, hr] at h
        exact absurd h (by decide)

/-- C1 witness: a parsed body whose access token is the empty string makes
`refreshTokens` fail. -/
theorem refreshTokens_atomic_witness :
    ∃ e, (refreshTokens store1
      (RefreshResp.json { access_token := some "", refresh_token := some "x" })).2 =
        Except.error e :=
  (refreshTokens_atomic store1
    (RefreshResp.json { access_token := some "", refresh_token := some "x" })).2.2
    { access_token := some "", refresh_token := some "x" } rfl (Or.inl (by decide))

/-- C2 counterexample: a successfully decoded payload whose expiry claim is
`0` has `expiresAt - now = -1000 < 300`, yet `isTokenExpiringSoon` returns
`false`, refuting the claim for every token with an `exp` claim of `0`. -/
theorem isTokenExpiringSoon_zero_exp_cex :
    decodeExp 0 "tok" = some { exp := some 0 } ∧
    (0 : Int) - 1000 < TOKEN_REFRESH_THRESHOLD ∧
    isTokenExpiringSoon (decodeExp 0) 1000 "tok" = false :=
  ⟨rfl, by decide, rfl⟩

/-- C2 (amended): for every access token whose payload decodes successfully
and contains a nonzero expiry claim, `isTokenExpiringSoon` returns `true`
iff `expiresAt - now < 300`, and at exactly 300 seconds remaining it
returns `false`. -/
theorem isTokenExpiringSoon_threshold (jwtDecode : String → Option JWTPayload)
    (token : String) (p : JWTPayload) (e now : Int)
    (hd : jwtDecode token = some p) (he : p.exp = some e) (hne : e ≠ 0) :
    (isTokenExpiringSoon jwtDecode now token = true ↔
      e - now < TOKEN_REFRESH_THRESHOLD) ∧
    (e - now = TOKEN_REFRESH_THRESHOLD →
      isTokenExpiringSoon jwtDecode now token = false) := by
  have hred : isTokenExpiringSoon jwtDecode now token =
      decide (e - now < TOKEN_REFRESH_THRESHOLD) := by
    unfold isTokenExpiringSoon
    rw [hd]
    simp [he, hne]
  constructor
  · rw [hred]
    simp
  · intro hb
    rw [hred, hb]
    decide

/-- C2 witness: with `exp = 1000`, at `now = 701` (299 s remaining) the
token is expiring soon; at `now = 700` (exactly 300 s) it is not. -/
theorem isTokenExpiringSoon_threshold_witness :
    isTokenExpiringSoon (decodeExp 1000) 701 "tok" = true ∧
    isTokenExpiringSoon (decodeExp 1000) 700 "tok" = false := by
  constructor
  · exact (isTokenExpiringSoon_threshold (decodeExp 1000) "tok" { exp := some 1000 }
      1000 701 rfl rfl (by decide)).1.mpr (by decide)
  · exact (isTokenExpiringSoon_threshold (decodeExp 1000) "tok" { exp := some 1000 }
      1000 700 rfl rfl (by decide)).2 (by decide)

/-- C3: when a token pair exists, the access token is expiring soon, and
the refresh exchange fails for any reason, `getValidToken` clears the
access token, the refresh token, and the persisted chat identifier all
together and returns `null`. -/
theorem getValidToken_refresh_failure (jwtDecode : String → Option JWTPayload)
    (now : Int) (resp : RefreshResp) (s : Store) (t : String) (e : RefreshError)
    (hpair : hasValidTokens s = true) (htok : s.token = some t)
    (hexp : isTokenExpiringSoon jwtDecode now t = true)
    (hfail : (refreshTokens s resp).2 = Except.error e) :
    getValidToken jwtDecode now resp s =
      ({ token := none, refresh_token := none, active_chat_id := none }, none) := by
  have hne : strTruthy (some t) = true := by
    have h2 := hpair
    unfold hasValidTokens at h2
    rw [htok] at h2
    exact (Bool.and_eq_true _ _).mp h2 |>.1
  have hsplit : refreshTokens s resp = ((refreshTokens s resp).1, Except.error e) := by
    rw [← hfail]
  unfold getValidToken getAccessToken
  rw [hpair, htok, hsplit]
  simp [hne, hexp, clearTokens]

/-- C3 witness: a store holding a full pair whose access token expires in
100 seconds, with the refresh endpoint rejecting, ends fully cleared. -/
theorem getValidToken_refresh_failure_witness :
    getValidToken (decodeExp 100) 0 RefreshResp.httpError store1 =
      ({ token := none, refresh_token := none, active_chat_id := none }, none) :=
  getValidToken_refresh_failure (decodeExp 100) 0 RefreshResp.httpError store1 "at"
    RefreshError.refreshRejected (by decide) rfl (by decide) rfl

/-- C8: a token whose payload cannot be decoded, or decodes without an
expiry claim, is never considered expiring soon. -/
theorem isTokenExpiringSoon_fail_open (jwtDecode : String → Option JWTPayload)
    (now : Int) (token : String)
    (h : jwtDecode token = none ∨ ∃ p, jwtDecode token = some p ∧ p.exp = none) :
    isTokenExpiringSoon jwtDecode now token = false := by
  unfold isTokenExpiringSoon
  rcases h with h | ⟨p, hp, he⟩
  · rw [h]
  · rw [hp]
    simp [he]

/-- C8 witness: a throwing decoder and a decoder yielding no expiry claim
both give `false`. -/
theorem isTokenExpiringSoon_fail_open_witness :
    isTokenExpiringSoon decodeNone 123 "bad" = false ∧
    isTokenExpiringSoon decodeNoExp 123 "tok" = false :=
  ⟨isTokenExpiringSoon_fail_open decodeNone 123 "bad" (Or.inl rfl),
   isTokenExpiringSoon_fail_open decodeNoExp 123 "tok"
     (Or.inr ⟨{ exp := none }, rfl, rfl⟩)⟩

/-- C10: a decoded payload with the falsy expiry claim `exp = 0` is treated
as having no expiry claim, so `isTokenExpiringSoon` returns `false` at any
current time. -/
theorem isTokenExpiringSoon_exp_zero (jwtDecode : String → Option JWTPayload)
    (now : Int) (token : String) (p : JWTPayload)
    (hd : jwtDecode token = some p) (he : p.exp = some 0) :
    isTokenExpiringSoon jwtDecode now token = false := by
  unfold isTokenExpiringSoon
  rw [hd]
  simp [he]

/-- C10 witness: a token with `exp = 0`, long expired at `now = 1000000`,
still does not trigger a refresh. -/
theorem isTokenExpiringSoon_exp_zero_witness :
    isTokenExpiringSoon (decodeExp 0) 1000000 "tok" = false :=
  isTokenExpiringSoon_exp_zero (decodeExp 0) 1000000 "tok" { exp := some 0 } rfl rfl

/-- Helper: the store `getValidToken` leaves behind is the input store, the
store a refresh left behind, or a fully cleared store. -/
theorem getValidToken_fst (jwtDecode : String → Option JWTPayload) (now : Int)
    (resp : RefreshResp) (s : Store) :
    (getValidToken jwtDecode now resp s).1 = s ∨
    (getValidToken jwtDecode now resp s).1 = (refreshTokens s resp).1 ∨
    (getValidToken jwtDecode now resp s).1 = clearTokens (refreshTokens s resp).1 := by
  unfold getValidToken
  split
  · exact Or.inl rfl
  · split
    · split
      · split
        next s1 pair heq => exact Or.inr (Or.inl (by rw [heq]))
        next s1 e heq => exact Or.inr (Or.inr (by rw [heq]))
      · exact Or.inl rfl
    · exact Or.inl rfl

/-- C9: every write path through the Credential Store — `setTokens`,
`clearTokens`, `refreshTokens`, and `getValidToken` — preserves the
invariant that the access token is present iff the refresh token is. -/
theorem credentialWrites_preserve_pair (s : Store) (a r : String)
    (jwtDecode : String → Option JWTPayload) (now : Int) (resp : RefreshResp)
    (h : tokenPairInvariant s) :
    tokenPairInvariant (setTokens s a r) ∧
    tokenPairInvariant (clearTokens s) ∧
    tokenPairInvariant (refreshTokens s resp).1 ∧
    tokenPairInvariant (getValidToken jwtDecode now resp s).1 := by
  have hset : ∀ s2 : Store, ∀ a2 r2 : String, tokenPairInvariant (setTokens s2 a2 r2) :=
    fun _ _ _ => rfl
  have hclear : ∀ s2 : Store, tokenPairInvariant (clearTokens s2) := fun _ => rfl
  have hrefresh : tokenPairInvariant (refreshTokens s resp).1 := by
    rcases refreshTokens_spec s resp with ⟨h1, -⟩ | ⟨a2, r2, -, -, -, h1, -⟩
    · rw [h1]; exact h
    · rw [h1]; exact hset s a2 r2
  refine ⟨hset s a r, hclear s, hrefresh, ?_⟩
  rcases getValidToken_fst jwtDecode now resp s with h1 | h1 | h1
  · rw [h1]; exact h
  · rw [h1]; exact hrefresh
  · rw [h1]; exact hclear _

/-- C9 witness: the invariant holds after each write applied to a store
holding a full credential set. -/
theorem credentialWrites_preserve_pair_witness :
    tokenPairInvariant (setTokens store1 "a" "r") ∧
    tokenPairInvariant (clearTokens store1) ∧
    tokenPairInvariant (refreshTokens store1 RefreshResp.httpError).1 ∧
    tokenPairInvariant (getValidToken (decodeExp 100) 0 RefreshResp.httpError store1).1 :=
  credentialWrites_preserve_pair store1 "a" "r" (decodeExp 100) 0 RefreshResp.httpError rfl

/-- C6: with a truthy persisted chat identifier, `getActiveChatId` returns
it without a network call and without modifying the store, and a repeated
call from the resulting state returns the same identifier again. -/
theorem getActiveChatId_cached (resp resp2 : ChatIdResp) (s : Store) (cid : String)
    (h : s.active_chat_id = some cid) (hne : cid ≠ "") :
    getActiveChatId resp s = (s, some cid, false) ∧
    getActiveChatId resp2 (getActiveChatId resp s).1 = (s, some cid, false) := by
  have h1 : getActiveChatId resp s = (s, some cid, false) := by
    unfold getActiveChatId
    rw [h]
    simp [hne]
  refine ⟨h1, ?_⟩
  rw [h1]
  show getActiveChatId resp2 s = (s, some cid, false)
  unfold getActiveChatId
  rw [h]
  simp [hne]

/-- C6 witness: two successive calls on a store persisting chat id `cid`
both return `cid` with no network call, for two different would-be
backend responses. -/
theorem getActiveChatId_cached_witness :
    getActiveChatId ChatIdResp.httpError store1 = (store1, some "cid", false) ∧
    getActiveChatId ChatIdResp.networkError
      (getActiveChatId ChatIdResp.httpError store1).1 = (store1, some "cid", false) :=
  getActiveChatId_cached ChatIdResp.httpError ChatIdResp.networkError store1 "cid"
    rfl (by decide)

/-- C7: selecting the currently active chat id is a no-op: the component
state (persisted chat id, chat id, history, sessions) is unchanged and no
history fetch occurs. -/
theorem handleSelectChat_same_id (selectedChatId : String) (resp : HistoryResp)
    (c : Component) (h : c.chatId = some selectedChatId) :
    handleSelectChat selectedChatId resp c = (c, false) := by
  unfold handleSelectChat
  cases htok : getAccessToken c.store with
  | none => rfl
  | some token => simp [h]

/-- C7 witness: re-selecting the active chat id of a concrete ready
component changes nothing and fetches nothing. -/
theorem handleSelectChat_same_id_witness :
    handleSelectChat "cid" HistoryResp.httpError comp1 = (comp1, false) :=
  handleSelectChat_same_id "cid" HistoryResp.httpError comp1 rfl

/-- C4 counterexample: a transport (network) failure of the history fetch
leaves the persisted chat identifier in place and does not reload,
refuting the claim that every history-fetch failure removes the id and
reinitializes. -/
theorem fetchChatHistory_transport_cex :
    comp1.store.active_chat_id = some "cid" ∧
    fetchChatHistory "cid" "at" HistoryResp.networkError comp1 = (comp1, false) :=
  ⟨rfl, rfl⟩

/-- C4 (amended): a non-success HTTP response to the history fetch removes
the persisted chat identifier and forces a page reload; a transport
failure is only logged, leaving all state unchanged with no reload. -/
theorem fetchChatHistory_failure (id token : String) (c : Component) :
    fetchChatHistory id token HistoryResp.httpError c =
      ({ c with store := { c.store with active_chat_id := none } }, true) ∧
    fetchChatHistory id token HistoryResp.networkError c = (c, false) :=
  ⟨rfl, rfl⟩

/-- C5 counterexample: when the session-list fetch fails for a component
whose session list is non-empty, the sessions do not become an empty
list — the state is simply unchanged. -/
theorem fetchChatSessions_failure_cex :
    comp1.sessions = [{ chat_id := "cid", title := "first" }] ∧
    comp1.sessions ≠ [] ∧
    fetchChatSessions "at" SessionsResp.httpError comp1 = comp1 :=
  ⟨rfl, by decide, rfl⟩

/-- C5 (amended): every failure of the session-list fetch (non-success
response, parse failure, or transport failure) is non-fatal and leaves the
entire component state — sessions, chat id, tokens, and history —
unchanged. -/
theorem fetchChatSessions_failure (token : String) (c : Component) :
    fetchChatSessions token SessionsResp.networkError c = c ∧
    fetchChatSessions token SessionsResp.httpError c = c ∧
    fetchChatSessions token SessionsResp.invalidJson c = c :=
  ⟨rfl, rfl, rfl⟩
